import Mathlib

/-!
# Verification of the PermitCard agent runner

Shallow embedding of `scripts/agent_runner.py` and proofs about the claims of
the specification.  Python exceptions are modelled by the `PyErr` type,
machine state (tracker labels/comments, local filesystem, executed shell
commands) is passed explicitly, and every outcome of an external call
(HTTP response of the model endpoint, success or failure of each tracker
call and of each shell command) is an input of the embedded program,
collected in an environment record.
-/

set_option autoImplicit false

namespace AgentRunner

/-- Python exceptions that the runner can raise, with enough structure to
state the claims.  `httpError` models `requests.HTTPError` raised by
`raise_for_status()`; `jsonDecodeError` models `json.JSONDecodeError`;
`keyError k` models `KeyError` on a missing dict key `k`;
`calledProcessError` models `subprocess.CalledProcessError`;
`retriesExhausted` models the `RuntimeError` raised after the retry loop. -/
inductive PyErr where
  | httpError (status : Nat)
  | jsonDecodeError
  | keyError (k : String)
  | typeError
  | attributeError
  | calledProcessError (code : Nat)
  | retriesExhausted
deriving DecidableEq, Repr

/-- `type(e).__name__` for the modelled exceptions. -/
def PyErr.name : PyErr → String
  | .httpError _ => "HTTPError"
  | .jsonDecodeError => "JSONDecodeError"
  | .keyError _ => "KeyError"
  | .typeError => "TypeError"
  | .attributeError => "AttributeError"
  | .calledProcessError _ => "CalledProcessError"
  | .retriesExhausted => "RuntimeError"

/-- `str(e)` for the modelled exceptions (the message part used in the
failure comment).  The exact text of the HTTP/process messages is a model
of the library-generated text; the `RuntimeError` message is the literal
string from the source. -/
def PyErr.msg : PyErr → String
  | .httpError s => toString s ++ " Error for url"
  | .jsonDecodeError => "Expecting value: line 1 column 1 (char 0)"
  | .keyError k => "\x27" ++ k ++ "\x27"
  | .typeError => "unsupported operand"
  | .attributeError => "object has no attribute"
  | .calledProcessError c => "Command returned non-zero exit status " ++ toString c
  | .retriesExhausted => "OpenAI request failed after retries (rate limit or server error)."

/-- JSON values, the result of `json.loads` / `r.json()`. -/
inductive JVal where
  | jnull
  | jbool (b : Bool)
  | jnum (n : Int)
  | jstr (s : String)
  | jarr (items : List JVal)
  | jobj (fields : List (String × JVal))

/-- Python `d[k]` on a parsed JSON value: `KeyError` when the key is
missing from an object, `TypeError` when the value is not an object
(indexing a list/str/number with a string key raises `TypeError`). -/
def dictGet (v : JVal) (k : String) : Except PyErr JVal :=
  match v with
  | .jobj fields =>
    match fields.find? (fun p => p.1 == k) with
    | some p => .ok p.2
    | none => .error (.keyError k)
  | _ => .error .typeError

/-- One `content` block of a Responses-API output item. -/
structure ContentItem where
  ctype : String
  text : String

/-- One item of the `output` array of a Responses-API payload.
`item.get("type")`, `item.get("text","")` and `item.get("content",[])`
are modelled as total fields with the Python defaults baked in. -/
structure OutItem where
  itemType : String
  text : String
  content : List ContentItem

/-- The JSON body of a model response, i.e. the result of `r.json()`. -/
structure RespData where
  output : List OutItem

/-- One HTTP response of the model endpoint: the status code, the raw body
text (`r.text`), and the parsed body (`r.json()`, `none` when the body is
not JSON so that the call raises). -/
structure ModelResponse where
  status : Nat
  text : String
  rjson : Option RespData

/-- `r.status_code == 429 or (500 <= r.status_code < 600)` — the retry
condition of the loop in `openai_json_response`. -/
def retryable (status : Nat) : Bool :=
  status == 429 || (500 ≤ status && status < 600)

/-- The extraction loop over `data.get("output", [])`: concatenates the
`text` of every item of type `"output_text"` and of every `content` block
of type `"output_text"`. -/
def extractOutText (items : List OutItem) : String :=
  items.foldl
    (fun acc item =>
      let acc := if item.itemType == "output_text" then acc ++ item.text else acc
      item.content.foldl
        (fun a c => if c.ctype == "output_text" then a ++ c.text else a) acc)
    ""

/-- The request payload posted to `/v1/responses`; it is built once,
before the retry loop. -/
structure Payload where
  model : String
  inputRole : String
  inputContent : String
  textFormatType : String
deriving DecidableEq

/-- The payload literal of `openai_json_response`. -/
def mkPayload (prompt : String) : Payload :=
  { model := "gpt-5.2", inputRole := "user", inputContent := prompt
    textFormatType := "json_object" }

/-- Observable trace of one call of `openai_json_response`: its result
(the returned parsed JSON or the raised exception), the number of HTTP
attempts made, the delays slept between attempts, the response bodies
logged on non-retryable errors, and the payload sent on each attempt. -/
structure CallTrace where
  result : Except PyErr JVal
  attempts : Nat
  delays : List ℚ
  logs : List String
  sent : List Payload

/-- The retry loop of `openai_json_response`.  `loads` models
`json.loads` on the extracted output text, `jitter a` models the
`random.uniform(0.0, 2.0)` sample of attempt `a`, and `resps a` is the
HTTP response received by attempt `a` (attempts are numbered from 1, as
in `range(1, max_attempts + 1)`).  The second `Nat` is the number of
remaining loop iterations. -/
def openaiLoop (loads : String → Option JVal) (jitter : Nat → ℚ)
    (resps : Nat → ModelResponse) (payload : Payload) :
    Nat → Nat → CallTrace
  | _, 0 => ⟨.error .retriesExhausted, 0, [], [], []⟩
  | attempt, r + 1 =>
    let resp := resps attempt
    if retryable resp.status then
      let w : ℚ := min 90 ((2 : ℚ) ^ attempt) + jitter attempt
      let t := openaiLoop loads jitter resps payload (attempt + 1) r
      ⟨t.result, t.attempts + 1, w :: t.delays, t.logs, payload :: t.sent⟩
    else if 400 ≤ resp.status then
      ⟨.error (.httpError resp.status), 1, [], [resp.text.take 1000], [payload]⟩
    else
      match resp.rjson with
      | none => ⟨.error .jsonDecodeError, 1, [], [], [payload]⟩
      | some data =>
        match loads (extractOutText data.output) with
        | none => ⟨.error .jsonDecodeError, 1, [], [], [payload]⟩
        | some v => ⟨.ok v, 1, [], [], [payload]⟩

/-- `openai_json_response(prompt)`: builds the payload once and runs the
retry loop with `max_attempts = 8`, starting at attempt 1. -/
def openai_json_response (loads : String → Option JVal) (jitter : Nat → ℚ)
    (resps : Nat → ModelResponse) (prompt : String) : CallTrace :=
  openaiLoop loads jitter resps (mkPayload prompt) 1 8

/-- `build_prompt(issue_title, issue_body)`: the f-string template of the
source, with the repository name, title and body interpolated (the doubled
braces of the f-string source produce single literal braces, written
`\x7b`/`\x7d` here). -/
def build_prompt (repo issue_title issue_body : String) : String :=
  "\nYou are a senior full-stack engineer working in a GitHub repo named \"" ++ repo ++
  "\".\n\nGoal of this repo:\nBuild a web app (Next.js + FastAPI) that lets a user upload a floor plan image/PDF, add annotations,\nenter scope, then generate inspector-visible permit PDF sheets.\n\nTask to implement now (do a SMALL, working increment):\nTitle: " ++
  issue_title ++ "\nDetails:\n" ++ issue_body ++
  "\n\nRules:\n- Keep changes minimal and runnable.\n- If adding dependencies, update requirements.txt or package.json accordingly.\n- Prefer incremental delivery (MVP scaffolding first).\n- Output STRICT JSON ONLY with:\n  - \"branch_name\": string (kebab-case, short)\n  - \"changes\": array of objects: \x7b\"path\": \"...\", \"content\": \"...\"\x7d\n  - \"commit_message\": string\n  - \"pr_title\": string\n  - \"pr_body\": string\n"

/-- Python `str(v)` on a parsed JSON value, as used when a plan field is
interpolated into an f-string command line.  Only the string case is
exercised by the claims; the other cases model `str()` of the
corresponding Python values. -/
def pyStr : JVal → String
  | .jnull => "None"
  | .jbool true => "True"
  | .jbool false => "False"
  | .jnum n => toString n
  | .jstr s => s
  | .jarr _ => "[...]"
  | .jobj _ => "\x7b...\x7d"

/-- The five plan fields read from the parsed plan in `main`
(`plan["branch_name"]`, `plan["changes"]`, `plan["commit_message"]`,
`plan["pr_title"]`, `plan["pr_body"]`), in source order. -/
structure PlanFields where
  branch : JVal
  changes : JVal
  commitMessage : JVal
  prTitle : JVal
  prBody : JVal

/-- The field-extraction block of `main` (lines 247–251): the five
subscript accesses in order; the first missing key raises `KeyError`. -/
def planFields (plan : JVal) : Except PyErr PlanFields :=
  match dictGet plan "branch_name" with
  | .error e => .error e
  | .ok b =>
    match dictGet plan "changes" with
    | .error e => .error e
    | .ok c =>
      match dictGet plan "commit_message" with
      | .error e => .error e
      | .ok m =>
        match dictGet plan "pr_title" with
        | .error e => .error e
        | .ok t =>
          match dictGet plan "pr_body" with
          | .error e => .error e
          | .ok y => .ok ⟨b, c, m, t, y⟩

/-- `os.path.dirname`, POSIX semantics: everything up to the last `/`,
with trailing slashes stripped unless the head is all slashes. -/
def dirname (p : String) : String :=
  let head := (p.data.reverse.dropWhile (fun c => c != '/')).reverse
  let head2 :=
    if head ≠ [] ∧ ¬ head.all (fun c => c == '/') then
      (head.reverse.dropWhile (fun c => c == '/')).reverse
    else head
  ⟨head2⟩

/-- The chain `d, dirname d, dirname (dirname d), …` down to the root,
fuel-bounded; these are the directories `os.makedirs(d, exist_ok=True)`
guarantees to exist afterwards. -/
def ancestorsGo : Nat → String → List String
  | 0, _ => []
  | n + 1, d =>
    if d = "" then []
    else
      d :: (let p := dirname d; if p = d then [] else ancestorsGo n p)

/-- All directories created by `os.makedirs(d, exist_ok=True)`. -/
def ancestors (d : String) : List String :=
  ancestorsGo (d.length + 1) d

/-- The local working tree: the set of existing directories and the file
contents, as an association list where the most recent write is first. -/
structure FS where
  dirs : List String
  files : List (String × String)

/-- Writing a file: `open(path, "w").write(content)` replaces the whole
content. -/
def writeFile (fs : FS) (p c : String) : FS :=
  { fs with files := (p, c) :: fs.files }

/-- The current content of a file, `none` when it does not exist. -/
def fileContent (fs : FS) (p : String) : Option String :=
  (fs.files.find? (fun e => e.1 == p)).map (fun e => e.2)

/-- `os.makedirs(d, exist_ok=True)`. -/
def makedirs (fs : FS) (d : String) : FS :=
  { fs with dirs := ancestors d ++ fs.dirs }

/-- ASCII whitespace, the characters Python's `str.strip()` removes
(restricted to the ASCII range in this model). -/
def isPySpace (c : Char) : Bool :=
  c == ' ' || c == '\t' || c == '\n' || c == '\r' || c == '\x0b' || c == '\x0c'

/-- Python `s.strip()`: remove leading and trailing whitespace. -/
def pystrip (s : String) : String :=
  ⟨((s.data.dropWhile isPySpace).reverse.dropWhile isPySpace).reverse⟩

/-- The body of the `apply_changes` loop for one entry `ch`:
`path = ch["path"].strip()`, `content = ch["content"]`, create the parent
directory if non-empty, then overwrite the file.  Non-conforming entries
raise the exception the corresponding Python operation would raise. -/
def applyOne (fs : FS) (ch : JVal) : Except PyErr FS :=
  match ch with
  | .jobj _ =>
    match dictGet ch "path" with
    | .error e => .error e
    | .ok pv =>
      match pv with
      | .jstr p0 =>
        match dictGet ch "content" with
        | .error e => .error e
        | .ok cv =>
          match cv with
          | .jstr content =>
            let path := pystrip p0
            let d := dirname path
            let fs1 := if d ≠ "" then makedirs fs d else fs
            .ok (writeFile fs1 path content)
          | _ => .error .typeError
      | _ => .error .attributeError
  | _ => .error .typeError

/-- The `for ch in changes` loop of `apply_changes`; on failure the
filesystem keeps the writes already performed. -/
def applyGo : FS → List JVal → Option PyErr × FS
  | fs, [] => (none, fs)
  | fs, ch :: rest =>
    match applyOne fs ch with
    | .error e => (some e, fs)
    | .ok fs1 => applyGo fs1 rest

/-- `apply_changes(changes)`: iterating a non-list raises `TypeError`;
otherwise the entries are processed in order. -/
def apply_changes (fs : FS) : JVal → Option PyErr × FS
  | .jarr cs => applyGo fs cs
  | _ => (some .typeError, fs)

/-- The work label `"agent"`. -/
def AGENT_LABEL : String := "agent"

/-- The lock label `"agent-in-progress"`. -/
def IN_PROGRESS_LABEL : String := "agent-in-progress"

/-- A tracker issue as seen by the runner: its number, title, optional
body, label names, and whether the item is a pull request (the
`"pull_request"` key test). -/
structure Issue where
  number : Nat
  title : String
  body : Option String
  labels : List String
  isPR : Bool
deriving DecidableEq, Repr

/-- The filter applied to each listed item in `pick_next_issue`: skip
pull requests, require the work label, skip items already in progress. -/
def eligible (it : Issue) : Bool :=
  !it.isPR && it.labels.contains AGENT_LABEL && !(it.labels.contains IN_PROGRESS_LABEL)

/-- `pick_next_issue()`: one `GET /issues?state=open&per_page=50` (the
tracker returns at most the first 50 open items of its default order,
modelled by `take 50` on the tracker's full open-item list), then the
first item passing the filter. -/
def pick_next_issue (openIssues : List Issue) : Option Issue :=
  (openIssues.take 50).find? eligible

/-- A single-quote character, for the `git config` command literals. -/
def sq : String := ⟨[Char.ofNat 39]⟩

/-- First command of `git_config_identity()`. -/
def cfgNameCmd : String := "git config user.name " ++ sq ++ "permit-agent" ++ sq

/-- Second command of `git_config_identity()`. -/
def cfgEmailCmd : String :=
  "git config user.email " ++ sq ++ "permit-agent@users.noreply.github.com" ++ sq

/-- `f"git checkout -b \x7bbranch\x7d"`. -/
def checkoutCmd (branch : String) : String := "git checkout -b " ++ branch

/-- `f'git commit -m "\x7bcommit_message\x7d"'`. -/
def commitCmd (commit_message : String) : String :=
  "git commit -m \"" ++ commit_message ++ "\""

/-- `f"git push -u origin \x7bbranch\x7d"`. -/
def pushCmd (branch : String) : String := "git push -u origin " ++ branch

/-- The start-notice comment body (the source file's literal begins with
the four mojibake characters U+F8FF U+00FC U+00A7 U+00F1); `started` is
the UTC timestamp string. -/
def startBody (started : String) : String :=
  "ü§ñ Agent picked up this issue at " ++ started ++
  ".\n\nWorking on it now..."

/-- The failure comment body, containing `type(e).__name__` and `str(e)`
(the source literal begins with the mojibake characters
U+201A U+00F9 U+00E5). -/
def failBody (e : PyErr) : String :=
  "‚ùå Agent failed:\n\n```\n" ++ e.name ++ ": " ++ e.msg ++
  "\n```\n\nCheck Actions logs for details."

/-- The success comment body (source literal begins with the mojibake
characters U+201A U+00FA U+00D6, and contains a mojibake apostrophe). -/
def successBody (pr_url : String) : String :=
  "‚úÖ Opened PR: " ++ pr_url ++
  "\n\nIf you want changes, comment on the PR or this issue and I‚Äôll iterate."

/-- The environment of one run: the tracker's open-item list, the clock
reading used in the start notice, the model-endpoint behaviour
(`loads`, `jitter`, `resps` as in `openai_json_response`), and the
outcome of every other external call: `lockErr` for the label-add POST,
`startCommentErr` for the start-notice POST, `shellErr n` for the `n`-th
`run()` subprocess call, `openPrResult` for the PR-creation POST,
`successCommentErr` for the success-comment POST, `unlockDeleteOk` for
whether the label DELETE in `remove_label` takes effect, and
`failCommentErr` for the failure-comment POST. -/
structure Env where
  openIssues : List Issue
  startTime : String
  loads : String → Option JVal
  jitter : Nat → ℚ
  resps : Nat → ModelResponse
  lockErr : Option PyErr
  startCommentErr : Option PyErr
  shellErr : Nat → Option PyErr
  openPrResult : Except PyErr String
  successCommentErr : Option PyErr
  unlockDeleteOk : Bool
  failCommentErr : Option PyErr

/-- The tracker-visible state of the selected issue during one run: its
labels and the comments posted by this run (in order). -/
structure TrackerSt where
  labels : List String
  comments : List String
deriving DecidableEq, Repr

/-- Result of the `try` block of `main`: the PR URL or the raised
exception, together with the filesystem and the executed shell commands
at that point. -/
structure TryOut where
  result : Except PyErr String
  fs : FS
  cmds : List String

/-- The `try` block of `main` (lines 243–268): generate the plan, read
its five fields, configure git identity, create the branch, apply the
changes, stage, commit, push, open the PR.  The final success-comment
call is included (its failure is caught by the same handler); the comment
itself is appended to the tracker state by the caller. -/
def tryBody (repo : String) (env : Env) (issue : Issue) (fs0 : FS) : TryOut :=
  let prompt := build_prompt repo issue.title (issue.body.getD "")
  let gen := openai_json_response env.loads env.jitter env.resps prompt
  match gen.result with
  | .error e => ⟨.error e, fs0, []⟩
  | .ok plan =>
    match planFields plan with
    | .error e => ⟨.error e, fs0, []⟩
    | .ok pf =>
      let cmds0 := [cfgNameCmd]
      match env.shellErr 0 with
      | some e => ⟨.error e, fs0, cmds0⟩
      | none =>
        let cmds1 := cmds0 ++ [cfgEmailCmd]
        match env.shellErr 1 with
        | some e => ⟨.error e, fs0, cmds1⟩
        | none =>
          let branch := pyStr pf.branch
          let cmds2 := cmds1 ++ [checkoutCmd branch]
          match env.shellErr 2 with
          | some e => ⟨.error e, fs0, cmds2⟩
          | none =>
            match apply_changes fs0 pf.changes with
            | (some e, fs1) => ⟨.error e, fs1, cmds2⟩
            | (none, fs1) =>
              let cmds3 := cmds2 ++ ["git add -A"]
              match env.shellErr 3 with
              | some e => ⟨.error e, fs1, cmds3⟩
              | none =>
                let cmds4 := cmds3 ++ [commitCmd (pyStr pf.commitMessage)]
                match env.shellErr 4 with
                | some e => ⟨.error e, fs1, cmds4⟩
                | none =>
                  let cmds5 := cmds4 ++ [pushCmd branch]
                  match env.shellErr 5 with
                  | some e => ⟨.error e, fs1, cmds5⟩
                  | none =>
                    match env.openPrResult with
                    | .error e => ⟨.error e, fs1, cmds5⟩
                    | .ok url =>
                      match env.successCommentErr with
                      | some e => ⟨.error e, fs1, cmds5⟩
                      | none => ⟨.ok url, fs1, cmds5⟩

/-- Observable outcome of one `main()` run: the exception propagated out
of `main` (if any), the final tracker state of the selected issue, the
final working tree, and the shell commands executed. -/
structure RunOut where
  raised : Option PyErr
  tracker : TrackerSt
  fs : FS
  cmds : List String

/-- The `except` block of `main` (lines 270–274), entered with the
original exception `e`: `remove_label` (whose own failure is swallowed by
its internal `try`/`except: pass`), then the failure comment (whose
failure is NOT caught and so replaces `e` as the propagated exception),
then `raise`. -/
def unwind (env : Env) (e : PyErr) (st : TrackerSt) (fs : FS) (cmds : List String) :
    RunOut :=
  let st1 : TrackerSt :=
    if env.unlockDeleteOk then
      { st with labels := st.labels.filter (fun l => l != IN_PROGRESS_LABEL) }
    else st
  match env.failCommentErr with
  | some f => ⟨some f, st1, fs, cmds⟩
  | none => ⟨some e, { st1 with comments := st1.comments ++ [failBody e] }, fs, cmds⟩

/-- `main()` from the point where an issue has been selected: add the
lock label, post the start notice (both OUTSIDE the `try` block: their
exceptions propagate with no cleanup), then the `try` block with the
`except` handler. -/
def mainWithIssue (repo : String) (env : Env) (issue : Issue) (fs0 : FS) : RunOut :=
  match env.lockErr with
  | some e => ⟨some e, ⟨issue.labels, []⟩, fs0, []⟩
  | none =>
    let labels1 := issue.labels ++ [IN_PROGRESS_LABEL]
    match env.startCommentErr with
    | some e => ⟨some e, ⟨labels1, []⟩, fs0, []⟩
    | none =>
      let st2 : TrackerSt := ⟨labels1, [startBody env.startTime]⟩
      let t := tryBody repo env issue fs0
      match t.result with
      | .error e => unwind env e st2 t.fs t.cmds
      | .ok url =>
        ⟨none, ⟨st2.labels, st2.comments ++ [successBody url]⟩, t.fs, t.cmds⟩

/-- `main()`: select the next eligible issue (no issue → clean exit with
no side effect), then process it. -/
def mainRun (repo : String) (env : Env) (fs0 : FS) : RunOut :=
  match pick_next_issue env.openIssues with
  | none => ⟨none, ⟨[], []⟩, fs0, []⟩
  | some issue => mainWithIssue repo env issue fs0

/-- Parser state for the fragment of POSIX `sh` word splitting relevant
to the injection claim: double quotes, unquoted spaces, and the unquoted
`;` command separator. -/
structure ShState where
  inQ : Bool
  cur : List Char
  started : Bool
  words : List String
  cmds : List (List String)

/-- One character of shell input. -/
def shStep (st : ShState) (c : Char) : ShState :=
  if c == '"' then { st with inQ := !st.inQ, started := true }
  else if !st.inQ && c == ' ' then
    if st.started then
      { st with cur := [], started := false, words := st.words ++ [⟨st.cur⟩] }
    else st
  else if !st.inQ && c == ';' then
    let words := if st.started then st.words ++ [⟨st.cur⟩] else st.words
    { inQ := st.inQ, cur := [], started := false, words := [],
      cmds := st.cmds ++ [words] }
  else { st with cur := st.cur ++ [c], started := true }

/-- How `sh -c` (as invoked by `subprocess` with `shell=True`) splits a
command line into simple commands and their argument words.  This models
the shell, an external collaborator of the program, for the fragment the
claim is about (double quotes, spaces, `;`). -/
def shellParse (s : String) : List (List String) :=
  let st := s.data.foldl shStep ⟨false, [], false, [], []⟩
  let words := if st.started then st.words ++ [⟨st.cur⟩] else st.words
  if words = [] then st.cmds else st.cmds ++ [words]

/-! ## Lemmas about the retry loop -/

theorem openaiLoop_retry (loads : String → Option JVal) (jitter : Nat → ℚ)
    (resps : Nat → ModelResponse) (payload : Payload) (a r : Nat)
    (h : retryable (resps a).status = true) :
    openaiLoop loads jitter resps payload a (r + 1) =
      (let t := openaiLoop loads jitter resps payload (a + 1) r
       ⟨t.result, t.attempts + 1, (min 90 ((2 : ℚ) ^ a) + jitter a) :: t.delays,
        t.logs, payload :: t.sent⟩) := by
  simp [openaiLoop, h]

theorem openaiLoop_skip (loads : String → Option JVal) (jitter : Nat → ℚ)
    (resps : Nat → ModelResponse) (payload : Payload) (N : Nat) :
    ∀ a r : Nat, N ≤ r →
    (∀ i, a ≤ i → i < a + N → retryable (resps i).status = true) →
    openaiLoop loads jitter resps payload a r =
      (let t := openaiLoop loads jitter resps payload (a + N) (r - N)
       ⟨t.result, t.attempts + N,
        (List.range N).map (fun k => min 90 ((2 : ℚ) ^ (a + k)) + jitter (a + k))
          ++ t.delays,
        t.logs, List.replicate N payload ++ t.sent⟩) := by
  induction N with
  | zero => intro a r _ _; simp
  | succ n ih =>
    intro a r hN hret
    obtain ⟨r', rfl⟩ : ∃ r', r = r' + 1 := ⟨r - 1, by omega⟩
    rw [openaiLoop_retry loads jitter resps payload a r'
      (hret a (Nat.le_refl a) (by omega))]
    rw [ih (a + 1) r' (by omega) (fun i h1 h2 => hret i (by omega) (by omega))]
    have hidx : a + 1 + n = a + (n + 1) := by omega
    have hr : r' - n = r' + 1 - (n + 1) := by omega
    rw [hidx, hr]
    simp only [List.range_succ_eq_map, List.map_cons, List.map_map,
      Function.comp_def, List.replicate_succ, List.cons_append,
      CallTrace.mk.injEq, List.cons.injEq, Nat.add_zero]
    and_intros <;>
      first
      | trivial
      | omega
      | (refine congrArg (fun z => z ++ _) (List.map_congr_left fun k _ => by
           rw [show a + 1 + k = a + (k + 1) from by omega]))

theorem openaiLoop_exhaust (loads : String → Option JVal) (jitter : Nat → ℚ)
    (resps : Nat → ModelResponse) (payload : Payload) (a : Nat) :
    openaiLoop loads jitter resps payload a 0 =
      ⟨.error .retriesExhausted, 0, [], [], []⟩ := rfl

theorem openaiLoop_success (loads : String → Option JVal) (jitter : Nat → ℚ)
    (resps : Nat → ModelResponse) (payload : Payload) (a r : Nat)
    (hnr : retryable (resps a).status = false)
    (hlt : (resps a).status < 400)
    (data : RespData) (hj : (resps a).rjson = some data)
    (v : JVal) (hl : loads (extractOutText data.output) = some v) :
    openaiLoop loads jitter resps payload a (r + 1) =
      ⟨.ok v, 1, [], [], [payload]⟩ := by
  simp [openaiLoop, hnr, hj, hl, Nat.not_le.mpr hlt]

theorem openaiLoop_parseFail (loads : String → Option JVal) (jitter : Nat → ℚ)
    (resps : Nat → ModelResponse) (payload : Payload) (a r : Nat)
    (hnr : retryable (resps a).status = false)
    (hlt : (resps a).status < 400)
    (data : RespData) (hj : (resps a).rjson = some data)
    (hl : loads (extractOutText data.output) = none) :
    openaiLoop loads jitter resps payload a (r + 1) =
      ⟨.error .jsonDecodeError, 1, [], [], [payload]⟩ := by
  simp [openaiLoop, hnr, hj, hl, Nat.not_le.mpr hlt]

theorem openaiLoop_httpFail (loads : String → Option JVal) (jitter : Nat → ℚ)
    (resps : Nat → ModelResponse) (payload : Payload) (a r : Nat)
    (hnr : retryable (resps a).status = false)
    (hge : 400 ≤ (resps a).status) :
    openaiLoop loads jitter resps payload a (r + 1) =
      ⟨.error (.httpError (resps a).status), 1, [],
        [(resps a).text.take 1000], [payload]⟩ := by
  simp [openaiLoop, hnr, hge]

theorem retryable_false_of_lt (s : Nat) (h : s < 400) : retryable s = false := by
  simp only [retryable, Bool.or_eq_false_iff, beq_eq_false_iff_ne, ne_eq,
    Bool.and_eq_false_iff, decide_eq_false_iff_not, not_le, not_lt]
  omega

theorem retryable_false_of_4xx (s : Nat) (h4 : 400 ≤ s) (h5 : s < 500)
    (h9 : s ≠ 429) : retryable s = false := by
  simp only [retryable, Bool.or_eq_false_iff, beq_eq_false_iff_ne, ne_eq,
    Bool.and_eq_false_iff, decide_eq_false_iff_not, not_le, not_lt]
  omega

/-! ## Claim C2 -/

/-- C2 (amended, N ≤ 7): if the endpoint returns N ≤ 7 consecutive
retryable responses (429/5xx) and then a success, `openai_json_response`
makes exactly N+1 attempts and returns the parsed plan; the k-th delay is
`min 90 (2^(k+1)) + jitter (k+1)` and is at most 92 when every jitter lies
in [0, 2); every attempt sends the identical payload; and after 8
consecutive retryable responses the call raises the exhaustion
`RuntimeError` after exactly 8 attempts, never making a 9th. -/
theorem C2_backoff (loads : String → Option JVal) (jitter : Nat → ℚ)
    (resps : Nat → ModelResponse) (prompt : String) (N : Nat)
    (data : RespData) (v : JVal)
    (hN : N ≤ 7)
    (hjit : ∀ i, 0 ≤ jitter i ∧ jitter i < 2)
    (hret : ∀ i, 1 ≤ i → i ≤ N → retryable (resps i).status = true)
    (hok : (resps (N + 1)).status < 400)
    (hjson : (resps (N + 1)).rjson = some data)
    (hparse : loads (extractOutText data.output) = some v) :
    (openai_json_response loads jitter resps prompt).result = .ok v ∧
    (openai_json_response loads jitter resps prompt).attempts = N + 1 ∧
    (openai_json_response loads jitter resps prompt).delays =
      (List.range N).map (fun k => min 90 ((2 : ℚ) ^ (k + 1)) + jitter (k + 1)) ∧
    (∀ d ∈ (openai_json_response loads jitter resps prompt).delays, d ≤ 92) ∧
    (openai_json_response loads jitter resps prompt).sent =
      List.replicate (N + 1) (mkPayload prompt) ∧
    (∀ resps8 : Nat → ModelResponse,
      (∀ i, 1 ≤ i → i ≤ 8 → retryable (resps8 i).status = true) →
      (openai_json_response loads jitter resps8 prompt).result =
          Except.error .retriesExhausted ∧
      (openai_json_response loads jitter resps8 prompt).attempts = 8) := by
  have h1N : 1 + N = N + 1 := Nat.add_comm 1 N
  have hnr : retryable (resps (N + 1)).status = false :=
    retryable_false_of_lt _ hok
  obtain ⟨r', hr'⟩ : ∃ r', 8 - N = r' + 1 := ⟨7 - N, by omega⟩
  have hskip := openaiLoop_skip loads jitter resps (mkPayload prompt) N 1 8
    (by omega) (fun i hi1 hi2 => hret i hi1 (by omega))
  rw [h1N, hr'] at hskip
  have hsucc := openaiLoop_success loads jitter resps (mkPayload prompt)
    (N + 1) r' hnr hok data hjson v hparse
  have hmain : openai_json_response loads jitter resps prompt =
      ⟨.ok v, 1 + N,
        (List.range N).map (fun k => min 90 ((2 : ℚ) ^ (1 + k)) + jitter (1 + k)),
        [], List.replicate N (mkPayload prompt) ++ [mkPayload prompt]⟩ := by
    unfold openai_json_response
    rw [hskip, hsucc]
    simp
  refine ⟨?_, ?_, ?_, ?_, ?_, ?_⟩
  · rw [hmain]
  · rw [hmain]; show 1 + N = N + 1; omega
  · rw [hmain]
    exact List.map_congr_left fun k _ => by rw [Nat.add_comm 1 k]
  · rw [hmain]
    intro d hd
    simp only [List.mem_map, List.mem_range] at hd
    obtain ⟨k, _, rfl⟩ := hd
    have h90 : min 90 ((2 : ℚ) ^ (1 + k)) ≤ 90 := min_le_left _ _
    have hj2 := (hjit (1 + k)).2
    linarith
  · rw [hmain]
    rw [List.replicate_succ']
  · intro resps8 h8
    have hskip8 := openaiLoop_skip loads jitter resps8 (mkPayload prompt) 8 1 8
      (by omega) (fun i hi1 hi2 => h8 i hi1 (by omega))
    have hz : openaiLoop loads jitter resps8 (mkPayload prompt) (1 + 8) (8 - 8) =
        ⟨.error .retriesExhausted, 0, [], [], []⟩ := rfl
    rw [hz] at hskip8
    constructor
    · show (openaiLoop loads jitter resps8 (mkPayload prompt) 1 8).result = _
      rw [hskip8]
    · show (openaiLoop loads jitter resps8 (mkPayload prompt) 1 8).attempts = 8
      rw [hskip8]

/-- A retryable server-error response. -/
def resp500 : ModelResponse := ⟨500, "err", none⟩

/-- A successful response whose extracted output text is `"ok"`. -/
def respOk : ModelResponse := ⟨200, "", some ⟨[⟨"output_text", "ok", []⟩]⟩⟩

/-- A `json.loads` oracle that parses `"ok"` into the JSON string `"x"`. -/
def loadsOk : String → Option JVal :=
  fun s => if s == "ok" then some (.jstr "x") else none

/-- Eight retryable responses, then a success on the ninth attempt. -/
def respsEight : Nat → ModelResponse := fun i => if i ≤ 8 then resp500 else respOk

/-- Three retryable responses, then a success on the fourth attempt. -/
def respsThree : Nat → ModelResponse := fun i => if i ≤ 3 then resp500 else respOk

/-- C2 counterexample: with N = 8 consecutive retryable responses followed
by a would-be success on the 9th attempt, the claim requires N+1 = 9
attempts; the code makes exactly 8 attempts, never issues the 9th (which
would have succeeded: the 9th response is a parseable 200), and raises the
exhaustion `RuntimeError`. -/
theorem C2_counterexample :
    (openai_json_response loadsOk (fun _ => 0) respsEight "p").attempts = 8 ∧
    (openai_json_response loadsOk (fun _ => 0) respsEight "p").attempts ≠ 9 ∧
    (openai_json_response loadsOk (fun _ => 0) respsEight "p").result =
      .error .retriesExhausted ∧
    (∀ i, 1 ≤ i → i ≤ 8 → retryable (respsEight i).status = true) ∧
    (respsEight 9).status = 200 ∧
    loadsOk (extractOutText (⟨[⟨"output_text", "ok", []⟩]⟩ : RespData).output) =
      some (.jstr "x") :=
  ⟨rfl, by decide, rfl, by decide, rfl, rfl⟩

/-- C2 witness: the amended theorem applied at N = 3 concrete retryable
responses followed by a success. -/
theorem C2_backoff_witness :
    (openai_json_response loadsOk (fun _ => 0) respsThree "p").result =
        .ok (.jstr "x") ∧
    (openai_json_response loadsOk (fun _ => 0) respsThree "p").attempts = 4 := by
  have h := C2_backoff loadsOk (fun _ => 0) respsThree "p" 3
    ⟨[⟨"output_text", "ok", []⟩]⟩ (.jstr "x") (by omega)
    (fun _ => ⟨le_refl 0, by norm_num⟩)
    (fun i h1 h2 => by interval_cases i <;> rfl)
    (by decide) rfl rfl
  exact ⟨h.1, h.2.1⟩

/-! ## Claim C5 -/

/-- C5: on a 2xx model response whose extracted output text fails to parse
as JSON, the call fails immediately with the JSON-decode error (the spec's
ModelPlanError) after exactly one HTTP attempt, with no retry and no sleep. -/
theorem C5_parse_failure (loads : String → Option JVal) (jitter : Nat → ℚ)
    (resps : Nat → ModelResponse) (prompt : String)
    (h2a : 200 ≤ (resps 1).status) (h2b : (resps 1).status < 300)
    (data : RespData) (hj : (resps 1).rjson = some data)
    (hp : loads (extractOutText data.output) = none) :
    (openai_json_response loads jitter resps prompt).result =
        .error .jsonDecodeError ∧
    (openai_json_response loads jitter resps prompt).attempts = 1 ∧
    (openai_json_response loads jitter resps prompt).delays = [] := by
  have hnr := retryable_false_of_lt (resps 1).status (by omega)
  have h8 : openai_json_response loads jitter resps prompt =
      ⟨.error .jsonDecodeError, 1, [], [], [mkPayload prompt]⟩ :=
    openaiLoop_parseFail loads jitter resps (mkPayload prompt) 1 7 hnr
      (by omega) data hj hp
  rw [h8]
  exact ⟨rfl, rfl, rfl⟩

/-- A 200 response whose output text does not parse as JSON. -/
def respBadText : ModelResponse :=
  ⟨200, "", some ⟨[⟨"output_text", "not json", []⟩]⟩⟩

/-- A `json.loads` oracle on which every string fails to parse. -/
def loadsNone : String → Option JVal := fun _ => none

/-- C5 witness: the theorem applied at a concrete 200 response whose body
text fails to parse. -/
theorem C5_witness :
    (openai_json_response loadsNone (fun _ => 0) (fun _ => respBadText) "p").result =
        .error .jsonDecodeError ∧
    (openai_json_response loadsNone (fun _ => 0) (fun _ => respBadText) "p").attempts
        = 1 := by
  have h := C5_parse_failure loadsNone (fun _ => 0) (fun _ => respBadText) "p"
    (by decide) (by decide) ⟨[⟨"output_text", "not json", []⟩]⟩ rfl rfl
  exact ⟨h.1, h.2.1⟩

/-! ## Claim C6 -/

/-- C6: a 4xx response other than 429 on the first attempt makes the call
fail immediately with `HTTPError` (the spec's ModelRequestError) after
exactly one HTTP attempt, with no retry and no sleep, and the response
body (truncated to 1000 characters) is logged. -/
theorem C6_http_4xx (loads : String → Option JVal) (jitter : Nat → ℚ)
    (resps : Nat → ModelResponse) (prompt : String)
    (h4 : 400 ≤ (resps 1).status) (h5 : (resps 1).status < 500)
    (h9 : (resps 1).status ≠ 429) :
    (openai_json_response loads jitter resps prompt).result =
        .error (.httpError (resps 1).status) ∧
    (openai_json_response loads jitter resps prompt).attempts = 1 ∧
    (openai_json_response loads jitter resps prompt).delays = [] ∧
    (openai_json_response loads jitter resps prompt).logs =
      [(resps 1).text.take 1000] := by
  have hnr := retryable_false_of_4xx (resps 1).status h4 h5 h9
  have h8 : openai_json_response loads jitter resps prompt =
      ⟨.error (.httpError (resps 1).status), 1, [],
        [(resps 1).text.take 1000], [mkPayload prompt]⟩ :=
    openaiLoop_httpFail loads jitter resps (mkPayload prompt) 1 7 hnr h4
  rw [h8]
  exact ⟨rfl, rfl, rfl, rfl⟩

/-- A 400 response with a diagnostic body. -/
def resp400 : ModelResponse := ⟨400, "invalid request", none⟩

/-- C6 witness: the theorem applied at a concrete single 400 response. -/
theorem C6_witness :
    (openai_json_response loadsNone (fun _ => 0) (fun _ => resp400) "p").result =
        .error (.httpError 400) ∧
    (openai_json_response loadsNone (fun _ => 0) (fun _ => resp400) "p").attempts
        = 1 ∧
    (openai_json_response loadsNone (fun _ => 0) (fun _ => resp400) "p").logs =
      ["invalid request".take 1000] := by
  have h := C6_http_4xx loadsNone (fun _ => 0) (fun _ => resp400) "p"
    (by decide) (by decide) (by decide)
  exact ⟨h.1, h.2.1, h.2.2.2⟩

/-! ## Claim C8: apply_changes -/

/-- A well-formed change entry, as the plan schema requires. -/
def mkChange (p c : String) : JVal :=
  .jobj [("path", .jstr p), ("content", .jstr c)]

/-- The filesystem effect of one well-formed change entry. -/
def stepFS (fs : FS) (pc : String × String) : FS :=
  let path := (pystrip pc.1)
  let d := dirname path
  let fs1 := if d ≠ "" then makedirs fs d else fs
  writeFile fs1 path pc.2

/-- The content of the last entry of `cs` whose stripped path is `p`. -/
def lastTarget (p : String) : List (String × String) → Option String
  | [] => none
  | pc :: tl =>
    match lastTarget p tl with
    | some c => some c
    | none => if (pystrip pc.1) == p then some pc.2 else none

theorem applyOne_mkChange (fs : FS) (p c : String) :
    applyOne fs (mkChange p c) = .ok (stepFS fs (p, c)) := rfl

theorem applyGo_mkChange (cs : List (String × String)) :
    ∀ fs : FS, applyGo fs (cs.map fun pc => mkChange pc.1 pc.2) =
      (none, cs.foldl stepFS fs) := by
  induction cs with
  | nil => intro fs; rfl
  | cons hd tl ih =>
    intro fs
    simp only [List.map_cons, applyGo, applyOne_mkChange, List.foldl_cons]
    exact ih (stepFS fs hd)

theorem fileContent_makedirs (fs : FS) (d p : String) :
    fileContent (makedirs fs d) p = fileContent fs p := rfl

theorem fileContent_stepFS (fs : FS) (pc : String × String) (p : String) :
    fileContent (stepFS fs pc) p =
      if (pystrip pc.1) == p then some pc.2 else fileContent fs p := by
  by_cases hd : dirname (pystrip pc.1) ≠ ""
  · simp only [stepFS, if_pos hd, fileContent, writeFile, makedirs, List.find?]
    by_cases h : (pystrip pc.1) == p
    · simp [h]
    · simp [h]
  · simp only [stepFS, if_neg hd, fileContent, writeFile, List.find?]
    by_cases h : (pystrip pc.1) == p
    · simp [h]
    · simp [h]

theorem fileContent_foldl (p : String) (cs : List (String × String)) :
    ∀ fs : FS, fileContent (cs.foldl stepFS fs) p =
      (match lastTarget p cs with
       | some c => some c
       | none => fileContent fs p) := by
  induction cs with
  | nil => intro fs; rfl
  | cons hd tl ih =>
    intro fs
    simp only [List.foldl_cons, lastTarget]
    rw [ih (stepFS fs hd)]
    cases lastTarget p tl with
    | some c => rfl
    | none =>
      simp only [fileContent_stepFS]
      by_cases h : (pystrip hd.1) == p
      · simp [h]
      · simp [h]

theorem dirs_stepFS (fs : FS) (pc : String × String) :
    fs.dirs ⊆ (stepFS fs pc).dirs := by
  by_cases hd : dirname (pystrip pc.1) ≠ ""
  · simp only [stepFS, if_pos hd, writeFile, makedirs]
    exact List.subset_append_right _ _
  · simp only [stepFS, if_neg hd, writeFile]
    exact fun x hx => hx

theorem dirs_foldl_mono (cs : List (String × String)) :
    ∀ fs : FS, fs.dirs ⊆ (cs.foldl stepFS fs).dirs := by
  induction cs with
  | nil => intro fs; exact List.Subset.refl _
  | cons hd tl ih =>
    intro fs
    exact List.Subset.trans (dirs_stepFS fs hd) (ih (stepFS fs hd))

theorem self_mem_ancestors (d : String) (h : d ≠ "") : d ∈ ancestors d := by
  unfold ancestors
  cases hl : d.length + 1 with
  | zero => omega
  | succ n =>
    simp only [ancestorsGo, if_neg h]
    exact List.mem_cons_self _ _

theorem dirname_mem_stepFS (fs : FS) (pc : String × String)
    (h : dirname (pystrip pc.1) ≠ "") :
    dirname (pystrip pc.1) ∈ (stepFS fs pc).dirs := by
  simp only [stepFS, if_pos h, writeFile, makedirs, List.mem_append]
  exact Or.inl (self_mem_ancestors _ h)

theorem dirname_mem_foldl (cs : List (String × String)) :
    ∀ (fs : FS) (pc : String × String), pc ∈ cs → dirname (pystrip pc.1) ≠ "" →
      dirname (pystrip pc.1) ∈ (cs.foldl stepFS fs).dirs := by
  induction cs with
  | nil => intro _ _ h; exact absurd h (List.not_mem_nil _)
  | cons hd tl ih =>
    intro fs pc hmem hne
    rcases List.mem_cons.mp hmem with rfl | htl
    · exact dirs_foldl_mono tl (stepFS fs pc) (dirname_mem_stepFS fs pc hne)
    · exact ih (stepFS fs hd) pc htl hne

/-- C8: `apply_changes` on a list of well-formed entries succeeds, creates
the parent directory of every entry's (stripped) path, and leaves in each
file exactly the content of the last entry targeting that path (earlier
entries for the same path are overwritten; untouched paths keep their
previous content). -/
theorem C8_apply (fs0 : FS) (cs : List (String × String)) (p : String) :
    (apply_changes fs0 (.jarr (cs.map fun pc => mkChange pc.1 pc.2))).1 = none ∧
    fileContent (apply_changes fs0 (.jarr (cs.map fun pc => mkChange pc.1 pc.2))).2 p
      = (match lastTarget p cs with
         | some c => some c
         | none => fileContent fs0 p) ∧
    (∀ pc ∈ cs, dirname (pystrip pc.1) ≠ "" →
      dirname (pystrip pc.1) ∈
        (apply_changes fs0 (.jarr (cs.map fun pc => mkChange pc.1 pc.2))).2.dirs) := by
  have hgo := applyGo_mkChange cs fs0
  have hac : apply_changes fs0 (.jarr (cs.map fun pc => mkChange pc.1 pc.2)) =
      (none, cs.foldl stepFS fs0) := hgo
  rw [hac]
  exact ⟨rfl, fileContent_foldl p cs fs0,
    fun pc hmem hne => dirname_mem_foldl cs fs0 pc hmem hne⟩

/-- The empty working tree. -/
def emptyFS : FS := ⟨[], []⟩

/-- C8 witness: the claim's concrete example — two entries for
`"a/b.txt"` with contents `"X"` then `"Y"`; afterwards the file holds
exactly `"Y"` and the parent directory `"a"` exists. -/
theorem C8_witness :
    (apply_changes emptyFS (.jarr [mkChange "a/b.txt" "X", mkChange "a/b.txt" "Y"])).1
        = none ∧
    fileContent
      (apply_changes emptyFS
        (.jarr [mkChange "a/b.txt" "X", mkChange "a/b.txt" "Y"])).2 "a/b.txt"
        = some "Y" ∧
    "a" ∈ (apply_changes emptyFS
        (.jarr [mkChange "a/b.txt" "X", mkChange "a/b.txt" "Y"])).2.dirs := by
  have h := C8_apply emptyFS [("a/b.txt", "X"), ("a/b.txt", "Y")] "a/b.txt"
  refine ⟨h.1, (h.2.1).trans (by rfl), ?_⟩
  have hmem := h.2.2 ("a/b.txt", "Y") (by simp) (by decide)
  have hd : dirname ((pystrip ("a/b.txt", "Y").1)) = "a" := by decide
  rw [hd] at hmem
  exact hmem

/-! ## Claim C4: selection -/

theorem find?_first {α : Type} (p : α → Bool) :
    ∀ {l : List α} {a : α}, l.find? p = some a →
      p a = true ∧ ∃ s t, l = s ++ a :: t ∧ ∀ x ∈ s, p x = false := by
  intro l
  induction l with
  | nil => intro a h; cases h
  | cons hd tl ih =>
    intro a h
    by_cases hp : p hd
    · rw [List.find?_cons_of_pos _ hp] at h
      cases h
      exact ⟨hp, [], tl, rfl, by simp⟩
    · rw [List.find?_cons_of_neg _ (by simpa using hp)] at h
      obtain ⟨hpa, s, t, rfl, hs⟩ := ih h
      refine ⟨hpa, hd :: s, t, rfl, ?_⟩
      intro x hx
      rcases List.mem_cons.mp hx with rfl | hx2
      · simpa using hp
      · exact hs x hx2

/-- C4 (amended): the selection looks only at the first 50 items the
tracker returns.  Among those, it returns the first open, non-PR item
carrying the work label and lacking the lock label, and `none` when no
item among the first 50 qualifies; and a run in which selection returns
`none` terminates cleanly with no tracker mutation, no exception, no
commands and an untouched working tree. -/
theorem C4_selection (l : List Issue) :
    (pick_next_issue l = none ↔ ∀ it ∈ l.take 50, eligible it = false) ∧
    (∀ it, pick_next_issue l = some it →
      eligible it = true ∧ it ∈ l ∧
      ∃ s t, l.take 50 = s ++ it :: t ∧ ∀ x ∈ s, eligible x = false) ∧
    (∀ (repo : String) (env : Env) (fs0 : FS),
      pick_next_issue env.openIssues = none →
      mainRun repo env fs0 = ⟨none, ⟨[], []⟩, fs0, []⟩) := by
  refine ⟨?_, ?_, ?_⟩
  · unfold pick_next_issue
    rw [List.find?_eq_none]
    constructor
    · intro h it hmem; simpa using h it hmem
    · intro h it hmem; simp [h it hmem]
  · intro it h
    obtain ⟨hel, s, t, heq, hs⟩ := find?_first eligible h
    have hmem : it ∈ l.take 50 := by
      rw [heq]
      exact List.mem_append_right s (List.mem_cons_self it t)
    exact ⟨hel, List.mem_of_mem_take hmem, s, t, heq, hs⟩
  · intro repo env fs0 h
    unfold mainRun
    rw [h]

/-- An open issue with no labels. -/
def blankIssue : Issue := ⟨1, "t", none, [], false⟩

/-- An eligible issue: open, not a PR, labelled `"agent"` only. -/
def agentIssue51 : Issue := ⟨51, "t51", none, ["agent"], false⟩

/-- 50 non-qualifying open issues followed by one qualifying issue: the
tracker state on which the claim fails. -/
def issues51 : List Issue := List.replicate 50 blankIssue ++ [agentIssue51]

/-- C4 counterexample: with 51 open items of which only the 51st
qualifies, a qualifying item exists (the spec-level first-qualifying
selection over the whole list finds it) but `pick_next_issue` returns
`none`, because the single page of 50 items it fetches does not contain
it. -/
theorem C4_counterexample :
    pick_next_issue issues51 = none ∧
    agentIssue51 ∈ issues51 ∧
    eligible agentIssue51 = true ∧
    issues51.find? eligible = some agentIssue51 :=
  ⟨by decide, by decide, by decide, by decide⟩

/-- C4 witness: the amended theorem applied at a one-element list. -/
theorem C4_witness :
    eligible agentIssue51 = true ∧
    (∃ s t, ([agentIssue51] : List Issue).take 50 = s ++ agentIssue51 :: t ∧
      ∀ x ∈ s, eligible x = false) := by
  have h := (C4_selection [agentIssue51]).2.1 agentIssue51 (by decide)
  exact ⟨h.1, h.2.2⟩

/-! ## String helpers for the comment bodies -/

theorem data_append (a b : String) : (a ++ b).data = a.data ++ b.data := rfl

theorem name_infix_failBody (e : PyErr) :
    e.name.data <:+: (failBody e).data := by
  refine ⟨("‚ùå Agent failed:\n\n```\n").data,
    (": ").data ++ e.msg.data ++
      ("\n```\n\nCheck Actions logs for details.").data, ?_⟩
  simp only [failBody, data_append, List.append_assoc]

theorem msg_infix_failBody (e : PyErr) :
    e.msg.data <:+: (failBody e).data := by
  refine ⟨("‚ùå Agent failed:\n\n```\n").data ++ e.name.data ++ (": ").data,
    ("\n```\n\nCheck Actions logs for details.").data, ?_⟩
  simp only [failBody, data_append, List.append_assoc]

theorem startBody_ne_failBody (t : String) (e : PyErr) :
    startBody t ≠ failBody e := by
  intro h
  have h1 : (startBody t).data.head? = some '' := rfl
  have h2 : (failBody e).data.head? = some '‚' := rfl
  rw [h, h2] at h1
  exact absurd (Option.some.inj h1) (by decide)

/-! ## Concrete run environments -/

/-- An eligible issue used by the concrete run scenarios. -/
def issueA : Issue := ⟨7, "add endpoint", some "details", ["agent"], false⟩

/-- A 200 model response whose extracted output text is `"P"`. -/
def respPlanP : ModelResponse := ⟨200, "", some ⟨[⟨"output_text", "P", []⟩]⟩⟩

/-- A complete five-field plan. -/
def planFull : JVal :=
  .jobj [("branch_name", .jstr "feat-x"), ("changes", .jarr []),
         ("commit_message", .jstr "add endpoint"), ("pr_title", .jstr "T"),
         ("pr_body", .jstr "B")]

/-- A `json.loads` oracle parsing `"P"` into the complete plan. -/
def loadsPlan : String → Option JVal :=
  fun s => if s == "P" then some planFull else none

/-- A baseline environment in which every external call succeeds. -/
def envOk : Env :=
  { openIssues := [issueA]
    startTime := "2025-01-01T00:00:00Z"
    loads := loadsPlan
    jitter := fun _ => 0
    resps := fun _ => respPlanP
    lockErr := none
    startCommentErr := none
    shellErr := fun _ => none
    openPrResult := .ok "https://example.test/pr/1"
    successCommentErr := none
    unlockDeleteOk := true
    failCommentErr := none }

/-! ## Claim C1: failure unwind coverage -/

/-- The environment in which the start-notice comment call fails. -/
def envC1 : Env := { envOk with startCommentErr := some (.httpError 502) }

/-- C1 counterexample: an exception raised by the start-notice comment
call — part of the claim's step 2 (locking plus start-notice comment) —
propagates out of the run while the lock label is still attached to the
work item and with no failure comment posted: the claimed unwind does not
cover step 2. -/
theorem C1_counterexample :
    (mainRun "o/r" envC1 emptyFS).raised = some (.httpError 502) ∧
    IN_PROGRESS_LABEL ∈ (mainRun "o/r" envC1 emptyFS).tracker.labels ∧
    (mainRun "o/r" envC1 emptyFS).tracker.comments = [] :=
  ⟨rfl, by decide, rfl⟩

/-- C1 (amended): provided step 2 itself raises nothing (locking and the
start-notice comment succeed) and the unwind's reporting calls take
effect, every exception `e` propagated out of the run — in particular one
raised in steps 3–5: generation, applying, publishing — has triggered the
failure unwind: afterwards the lock label is absent and a failure comment
containing the error kind (`type(e).__name__`) and message (`str(e)`) is
among the posted comments, and the exception re-raised to the invoking
job is `e` itself.  Exceptions raised inside step 2 are NOT unwound (see
the counterexample). -/
theorem mainRun_none (repo : String) (env : Env) (fs0 : FS)
    (hpick : pick_next_issue env.openIssues = none) :
    mainRun repo env fs0 = ⟨none, ⟨[], []⟩, fs0, []⟩ := by
  unfold mainRun
  rw [hpick]

theorem mainRun_some (repo : String) (env : Env) (fs0 : FS) (issue : Issue)
    (hpick : pick_next_issue env.openIssues = some issue) :
    mainRun repo env fs0 = mainWithIssue repo env issue fs0 := by
  unfold mainRun
  rw [hpick]

theorem mainWithIssue_eq (repo : String) (env : Env) (issue : Issue) (fs0 : FS)
    (hlock : env.lockErr = none) (hstart : env.startCommentErr = none) :
    mainWithIssue repo env issue fs0 =
      (match (tryBody repo env issue fs0).result with
       | .error e =>
         unwind env e ⟨issue.labels ++ [IN_PROGRESS_LABEL], [startBody env.startTime]⟩
           (tryBody repo env issue fs0).fs (tryBody repo env issue fs0).cmds
       | .ok url =>
         ⟨none,
          ⟨issue.labels ++ [IN_PROGRESS_LABEL],
           [startBody env.startTime, successBody url]⟩,
          (tryBody repo env issue fs0).fs, (tryBody repo env issue fs0).cmds⟩) := by
  unfold mainWithIssue
  rw [hlock, hstart]
  rfl

theorem C1_unwind (repo : String) (env : Env) (fs0 : FS) (e : PyErr)
    (hlock : env.lockErr = none) (hstart : env.startCommentErr = none)
    (hdel : env.unlockDeleteOk = true) (hfc : env.failCommentErr = none)
    (hr : (mainRun repo env fs0).raised = some e) :
    IN_PROGRESS_LABEL ∉ (mainRun repo env fs0).tracker.labels ∧
    failBody e ∈ (mainRun repo env fs0).tracker.comments ∧
    e.name.data <:+: (failBody e).data ∧
    e.msg.data <:+: (failBody e).data := by
  cases hpick : pick_next_issue env.openIssues with
  | none =>
    rw [mainRun_none repo env fs0 hpick] at hr
    simp at hr
  | some issue =>
    rw [mainRun_some repo env fs0 issue hpick] at hr ⊢
    rw [mainWithIssue_eq repo env issue fs0 hlock hstart] at hr ⊢
    cases htr : (tryBody repo env issue fs0).result with
    | ok url =>
      rw [htr] at hr
      simp at hr
    | error e2 =>
      rw [htr] at hr
      simp only [unwind, hfc, hdel, if_true] at hr ⊢
      have he : e2 = e := by simpa using hr
      subst he
      refine ⟨?_, ?_, name_infix_failBody e2, msg_infix_failBody e2⟩
      · simp [List.mem_filter]
      · simp

/-- The environment in which the plan text fails to parse, so generation
(step 3) raises. -/
def envGenFail : Env := { envOk with loads := loadsNone }

/-- C1 witness: the amended theorem applied at a concrete run whose
generation step raises a JSON-decode error. -/
theorem C1_witness :
    (mainRun "o/r" envGenFail emptyFS).raised = some .jsonDecodeError ∧
    IN_PROGRESS_LABEL ∉ (mainRun "o/r" envGenFail emptyFS).tracker.labels ∧
    failBody .jsonDecodeError ∈ (mainRun "o/r" envGenFail emptyFS).tracker.comments := by
  have h := C1_unwind "o/r" envGenFail emptyFS .jsonDecodeError rfl rfl rfl rfl rfl
  exact ⟨rfl, h.1, h.2.1⟩

/-! ## Claim C3: unwind after a publish failure -/

/-- The error `e` is raised by one of the publish stages: branch creation
(`run` call 2), staging (`run` call 3), commit (`run` call 4), push
(`run` call 5), or PR creation — each with every earlier stage (and, for
the stages after it, the change application) having succeeded. -/
def publishFailsWith (env : Env) (fs0 : FS) (pf : PlanFields) (e : PyErr) : Prop :=
  (env.shellErr 2 = some e) ∨
  (env.shellErr 2 = none ∧ (apply_changes fs0 pf.changes).1 = none ∧
   env.shellErr 3 = some e) ∨
  (env.shellErr 2 = none ∧ (apply_changes fs0 pf.changes).1 = none ∧
   env.shellErr 3 = none ∧ env.shellErr 4 = some e) ∨
  (env.shellErr 2 = none ∧ (apply_changes fs0 pf.changes).1 = none ∧
   env.shellErr 3 = none ∧ env.shellErr 4 = none ∧ env.shellErr 5 = some e) ∨
  (env.shellErr 2 = none ∧ (apply_changes fs0 pf.changes).1 = none ∧
   env.shellErr 3 = none ∧ env.shellErr 4 = none ∧ env.shellErr 5 = none ∧
   env.openPrResult = .error e)

theorem tryBody_publish_error (repo : String) (env : Env) (issue : Issue)
    (fs0 : FS) (plan : JVal) (pf : PlanFields) (e : PyErr)
    (hgen : (openai_json_response env.loads env.jitter env.resps
      (build_prompt repo issue.title (issue.body.getD ""))).result = .ok plan)
    (hpf : planFields plan = .ok pf)
    (hsh0 : env.shellErr 0 = none) (hsh1 : env.shellErr 1 = none)
    (hpub : publishFailsWith env fs0 pf e) :
    (tryBody repo env issue fs0).result = .error e := by
  unfold tryBody
  rcases hpub with h2 | ⟨h2, happ, h3⟩ | ⟨h2, happ, h3, h4⟩ |
    ⟨h2, happ, h3, h4, h5⟩ | ⟨h2, happ, h3, h4, h5, hpr⟩
  · simp only [hgen, hpf, hsh0, hsh1, h2]
  all_goals
    rcases hac : apply_changes fs0 pf.changes with ⟨o, fs1⟩
  all_goals
    rw [hac] at happ
  all_goals
    simp only at happ
  all_goals
    subst happ
  · simp only [hgen, hpf, hsh0, hsh1, h2, hac, h3]
  · simp only [hgen, hpf, hsh0, hsh1, h2, hac, h3, h4]
  · simp only [hgen, hpf, hsh0, hsh1, h2, hac, h3, h4, h5]
  · simp only [hgen, hpf, hsh0, hsh1, h2, hac, h3, h4, h5, hpr]

/-- C3: when publishing raises after the lock was taken — at any of its
stages: branch creation, staging, commit, push, or PR creation — and the
unwind's own tracker calls take effect, then afterwards the lock label is
absent, the run's comments are exactly the start notice followed by one
failure comment (so exactly one failure comment was posted), and the
original publish error is the one re-raised. -/
theorem C3_publish_unwind (repo : String) (env : Env) (fs0 : FS)
    (issue : Issue) (plan : JVal) (pf : PlanFields) (e : PyErr)
    (hpick : pick_next_issue env.openIssues = some issue)
    (hlock : env.lockErr = none) (hstart : env.startCommentErr = none)
    (hgen : (openai_json_response env.loads env.jitter env.resps
      (build_prompt repo issue.title (issue.body.getD ""))).result = .ok plan)
    (hpf : planFields plan = .ok pf)
    (hsh0 : env.shellErr 0 = none) (hsh1 : env.shellErr 1 = none)
    (hpub : publishFailsWith env fs0 pf e)
    (hdel : env.unlockDeleteOk = true) (hfc : env.failCommentErr = none) :
    (mainRun repo env fs0).raised = some e ∧
    IN_PROGRESS_LABEL ∉ (mainRun repo env fs0).tracker.labels ∧
    (mainRun repo env fs0).tracker.comments =
      [startBody env.startTime, failBody e] ∧
    ((mainRun repo env fs0).tracker.comments.countP
      fun c => c == failBody e) = 1 := by
  have htr := tryBody_publish_error repo env issue fs0 plan pf e hgen hpf
    hsh0 hsh1 hpub
  rw [mainRun_some repo env fs0 issue hpick,
      mainWithIssue_eq repo env issue fs0 hlock hstart, htr]
  simp only [unwind, hfc, hdel, if_true]
  have hne := startBody_ne_failBody env.startTime e
  and_intros <;>
    first
    | trivial
    | rfl
    | (simp [List.mem_filter]; done)
    | (simp [List.countP_cons, List.countP_nil, beq_iff_eq, hne]; done)

/-- The environment in which the `git push` subprocess (the sixth `run`
call, index 5) exits non-zero. -/
def envPushFail : Env :=
  { envOk with
      shellErr := fun n => if n == 5 then some (.calledProcessError 1) else none }

/-- C3 witness: the theorem applied at a concrete run whose publish step
fails at `git push`. -/
theorem C3_witness :
    (mainRun "o/r" envPushFail emptyFS).raised =
        some (.calledProcessError 1) ∧
    IN_PROGRESS_LABEL ∉ (mainRun "o/r" envPushFail emptyFS).tracker.labels ∧
    (mainRun "o/r" envPushFail emptyFS).tracker.comments =
      [startBody "2025-01-01T00:00:00Z", failBody (.calledProcessError 1)] ∧
    ((mainRun "o/r" envPushFail emptyFS).tracker.comments.countP
      fun c => c == failBody (.calledProcessError 1)) = 1 :=
  C3_publish_unwind "o/r" envPushFail emptyFS issueA planFull
    ⟨.jstr "feat-x", .jarr [], .jstr "add endpoint", .jstr "T", .jstr "B"⟩
    (.calledProcessError 1) rfl rfl rfl rfl rfl rfl rfl
    (Or.inr (Or.inr (Or.inr (Or.inl ⟨rfl, rfl, rfl, rfl, rfl⟩)))) rfl rfl

/-! ## Claim C9: reporting failures during the unwind -/

/-- The environment in which publishing fails with a 422 and the
failure-comment call itself fails with a 500. -/
def envC9 : Env :=
  { envOk with openPrResult := .error (.httpError 422)
               failCommentErr := some (.httpError 500) }

/-- C9 counterexample: publishing fails with a 422 `HTTPError` (the
original error), the unwind's failure-comment call itself fails with a
500 `HTTPError`, and the exception propagated to the invoking job is the
500 reporting error, not the original 422 — the reporting failure masks
the original error (and no failure comment is posted). -/
theorem C9_counterexample :
    (mainRun "o/r" envC9 emptyFS).raised = some (.httpError 500) ∧
    (mainRun "o/r" envC9 emptyFS).raised ≠ some (.httpError 422) ∧
    (mainRun "o/r" envC9 emptyFS).tracker.comments =
      [startBody "2025-01-01T00:00:00Z"] :=
  ⟨rfl, by decide, rfl⟩

/-- C9 (amended): during the failure unwind, a failure of the
label-removal call is swallowed (`remove_label` wraps its HTTP call in
`try`/`except: pass`) and never masks the original error, which is still
re-raised; but the failure-comment call is unprotected, so when it fails
its own exception — not the original error — is the one propagated. -/
theorem C9_reporting (env : Env) (e : PyErr) (st : TrackerSt) (fs : FS)
    (cmds : List String) :
    (env.failCommentErr = none → (unwind env e st fs cmds).raised = some e) ∧
    (∀ f, env.failCommentErr = some f →
      (unwind env e st fs cmds).raised = some f) := by
  constructor
  · intro h; simp [unwind, h]
  · intro f h; simp [unwind, h]

/-- The environment in which the unwind's label-removal call fails. -/
def envC9w : Env := { envOk with unlockDeleteOk := false }

/-- C9 witness: the amended theorem applied with a failing label removal —
the original error is still the one re-raised. -/
theorem C9_witness :
    (unwind envC9w (.httpError 422) ⟨["agent"], []⟩ emptyFS []).raised =
      some (.httpError 422) :=
  (C9_reporting envC9w (.httpError 422) ⟨["agent"], []⟩ emptyFS []).1 rfl

/-! ## Claim C7: missing plan fields -/

/-- A `json.loads` oracle parsing the empty extracted text into an empty
JSON object — a plan missing every required field. -/
def loadsEmptyObj : String → Option JVal :=
  fun s => if s == "" then some (.jobj []) else none

/-- A 200 response with no output items, so the extracted text is empty. -/
def respEmptyOut : ModelResponse := ⟨200, "", some ⟨[]⟩⟩

/-- C7 counterexample: on a 2xx response whose plan is the empty JSON
object (missing every required field), the generation step does NOT fail —
`openai_json_response` returns the parsed plan — and the failure arises
afterwards, in `main`'s field access, as a `KeyError` on
`"branch_name"`, not as a plan error raised by the generation step. -/
theorem C7_counterexample :
    (openai_json_response loadsEmptyObj (fun _ => 0) (fun _ => respEmptyOut)
      "p").result = .ok (.jobj []) ∧
    planFields (.jobj []) = .error (.keyError "branch_name") :=
  ⟨rfl, rfl⟩

/-- The required plan fields, in the order `main` reads them. -/
def requiredPlanKeys : List String :=
  ["branch_name", "changes", "commit_message", "pr_title", "pr_body"]

/-- C7 (amended): a parsed plan missing any required field makes the run
fail with a `KeyError` naming a missing required field, raised at `main`'s
field extraction — after the generation step has already returned the
plan — and handled by the same failure unwind as other step 3–5 errors. -/
theorem C7_missing_field (fields : List (String × JVal))
    (h : ∃ k ∈ requiredPlanKeys, fields.find? (fun p => p.1 == k) = none) :
    ∃ k ∈ requiredPlanKeys, planFields (.jobj fields) = .error (.keyError k) ∧
      fields.find? (fun p => p.1 == k) = none := by
  cases hb : fields.find? (fun p => p.1 == "branch_name") with
  | none =>
    exact ⟨"branch_name", by simp [requiredPlanKeys],
      by simp [planFields, dictGet, hb], hb⟩
  | some vb =>
  cases hc : fields.find? (fun p => p.1 == "changes") with
  | none =>
    exact ⟨"changes", by simp [requiredPlanKeys],
      by simp [planFields, dictGet, hb, hc], hc⟩
  | some vc =>
  cases hm : fields.find? (fun p => p.1 == "commit_message") with
  | none =>
    exact ⟨"commit_message", by simp [requiredPlanKeys],
      by simp [planFields, dictGet, hb, hc, hm], hm⟩
  | some vm =>
  cases ht : fields.find? (fun p => p.1 == "pr_title") with
  | none =>
    exact ⟨"pr_title", by simp [requiredPlanKeys],
      by simp [planFields, dictGet, hb, hc, hm, ht], ht⟩
  | some vt =>
  cases hy : fields.find? (fun p => p.1 == "pr_body") with
  | none =>
    exact ⟨"pr_body", by simp [requiredPlanKeys],
      by simp [planFields, dictGet, hb, hc, hm, ht, hy], hy⟩
  | some vy =>
    exfalso
    obtain ⟨k, hk, hn⟩ := h
    simp only [requiredPlanKeys, List.mem_cons, List.not_mem_nil, or_false] at hk
    rcases hk with rfl | rfl | rfl | rfl | rfl <;> simp_all

/-- C7 witness: the amended theorem applied at a plan providing only
`branch_name`. -/
theorem C7_witness :
    ∃ k ∈ requiredPlanKeys,
      planFields (.jobj [("branch_name", JVal.jstr "b")]) =
          .error (.keyError k) ∧
      ([("branch_name", JVal.jstr "b")] : List (String × JVal)).find?
        (fun p => p.1 == k) = none :=
  C7_missing_field [("branch_name", .jstr "b")]
    ⟨"changes", by simp [requiredPlanKeys], rfl⟩

/-! ## Claim C10: shell interpolation -/

/-- A plan whose branch name contains a space and whose commit message
contains a double quote. -/
def planInj : JVal :=
  .jobj [("branch_name", .jstr "a b"), ("changes", .jarr []),
         ("commit_message", .jstr "m\" x"), ("pr_title", .jstr "T"),
         ("pr_body", .jstr "B")]

/-- A `json.loads` oracle parsing `"P"` into the metacharacter plan. -/
def loadsInj : String → Option JVal :=
  fun s => if s == "P" then some planInj else none

/-- The otherwise-successful environment whose plan carries shell
metacharacters. -/
def envC10 : Env := { envOk with loads := loadsInj }

/-- C10: the publishing command lines are built by direct unescaped
interpolation — `checkoutCmd`/`commitCmd`/`pushCmd` are exactly the
claimed template strings with the field substituted verbatim, and the run
executes exactly those strings; consequently, for the plan whose branch
name is `"a b"` and whose commit message contains a double quote, the
shell does not execute a single git invocation on the literal field
value: the branch splits into two argument words and the quoted commit
message breaks out of its quoting. -/
theorem C10_injection :
    (∀ b m : String,
      checkoutCmd b = "git checkout -b " ++ b ∧
      commitCmd m = "git commit -m \"" ++ m ++ "\"" ∧
      pushCmd b = "git push -u origin " ++ b) ∧
    (mainRun "o/r" envC10 emptyFS).cmds =
      [cfgNameCmd, cfgEmailCmd, checkoutCmd "a b", "git add -A",
       commitCmd "m\" x", pushCmd "a b"] ∧
    shellParse (checkoutCmd "a b") = [["git", "checkout", "-b", "a", "b"]] ∧
    shellParse (checkoutCmd "a b") ≠ [["git", "checkout", "-b", "a b"]] ∧
    shellParse (commitCmd "m\" x") = [["git", "commit", "-m", "m", "x"]] ∧
    shellParse (commitCmd "m\" x") ≠ [["git", "commit", "-m", "m\" x"]] :=
  ⟨fun b m => ⟨rfl, rfl, rfl⟩, rfl, by decide, by decide, by decide, by decide⟩

end AgentRunner
